import Mathlib

/-!
# DealDish backend — formal model

A shallow embedding of `src/server.py` (FastAPI + MongoDB marketplace
backend).  Conventions:

* Prices, rates and amounts are modelled as exact rationals (`ℚ`);
  the Python source uses floats but every claim is about the arithmetic
  the code writes down, which we take over exact arithmetic.
* Timestamps (`datetime`) are modelled as integers measured in **days**
  since an arbitrary epoch, so `timedelta(days=30)` is the integer `30`.
  `datetime.utcnow()` becomes an explicit `now` parameter.
* Generated identifiers (`uuid.uuid4()`) become explicit `String`
  parameters of each operation.
* The MongoDB database becomes a `Store` record of five lists, one per
  collection; `insert_one` appends, `find_one` is `List.find?`,
  `count_documents` is `List.length ∘ List.filter`, `to_list 100` is
  `List.take 100` after filtering.
* Handlers that can raise `HTTPException` return `Except E α × Store`:
  the second component is the store as left behind by the handler, so
  "no document was written" is a provable statement.
* Python `int()` on a rational truncates toward zero (`pyInt`), and
  Python division raises `ZeroDivisionError` on a zero divisor, which the
  embedding surfaces as an explicit error value.
-/

namespace DealDish

/-- Timestamps in whole days since an arbitrary epoch, so that
`timedelta(days=30)` is the integer `30`. -/
abbrev DateTime := ℤ

/-- Python `int()`: truncation toward zero, computed on the reduced
numerator and denominator (`Int.tdiv` is T-rounding division). -/
def pyInt (q : ℚ) : ℤ := q.num.tdiv q.den

instance {e a : Type} [DecidableEq e] [DecidableEq a] :
    DecidableEq (Except e a) := fun x y =>
  match x, y with
  | .ok u, .ok v =>
      if h : u = v then isTrue (by rw [h]) else isFalse (by simp [h])
  | .error u, .error v =>
      if h : u = v then isTrue (by rw [h]) else isFalse (by simp [h])
  | .ok _, .error _ => isFalse (by simp)
  | .error _, .ok _ => isFalse (by simp)

/-! ## Enums (`UserType`, `SubscriptionStatus`, `CommissionTier`) -/

inductive UserType where
  | customer
  | restaurant
deriving DecidableEq, Repr

inductive SubscriptionStatus where
  | trial
  | active
  | expired
  | cancelled
deriving DecidableEq, Repr

inductive CommissionTier where
  | trial
  | standard
deriving DecidableEq, Repr

/-! ## Field validators of the `User` model

`validate_email` embeds the regex `^[a-zA-Z0-9._%+-]+@[a-zA-Z0-9.-]+\.[a-zA-Z]{2,}$`
and `validate_mobile_number` the regex `^(\+61|0)[4-5]\d{8}$`; a backtracking
match of the anchored email pattern exists exactly when the string splits as
`local ++ "@" ++ domain ++ "." ++ tld` with the three parts drawn from the
respective character classes, which `splits` enumerates. -/

def emailLocalChar (c : Char) : Bool :=
  c.isAlpha || c.isDigit || c == '.' || c == '_' || c == '%' || c == '+' || c == '-'

def emailDomainChar (c : Char) : Bool :=
  c.isAlpha || c.isDigit || c == '.' || c == '-'

/-- All ways of writing `l` as `pre ++ suf`. -/
def splits : List Char → List (List Char × List Char)
  | [] => [([], [])]
  | c :: rest => ([], c :: rest) :: (splits rest).map (fun p => (c :: p.1, p.2))

def validate_email (s : String) : Bool :=
  (splits s.data).any fun p =>
    match p.2 with
    | '@' :: r =>
        !p.1.isEmpty && p.1.all emailLocalChar &&
        ((splits r).any fun q =>
          match q.2 with
          | '.' :: t =>
              !q.1.isEmpty && q.1.all emailDomainChar &&
              decide (2 ≤ t.length) && t.all Char.isAlpha
          | _ => false)
    | _ => false

/-- Tail of the mobile regex: `[4-5]` followed by exactly eight digits. -/
def mobileTail (l : List Char) : Bool :=
  match l with
  | c :: rest => (c == '4' || c == '5') && rest.length == 8 && rest.all Char.isDigit
  | [] => false

def validate_mobile_number (s : String) : Bool :=
  match s.data with
  | '+' :: '6' :: '1' :: rest => mobileTail rest
  | '0' :: rest => mobileTail rest
  | _ => false

/-! ## Entity records and creation payloads -/

structure User where
  id : String
  email : String
  name : String
  mobile_number : String
  user_type : UserType
  created_at : DateTime
  subscription_status : SubscriptionStatus := .trial
  trial_end_date : Option DateTime := none
  subscription_end_date : Option DateTime := none
  commission_tier : CommissionTier := .trial
deriving DecidableEq, Repr

structure UserCreate where
  email : String
  name : String
  mobile_number : String
  user_type : UserType
deriving DecidableEq, Repr

structure Subscription where
  id : String
  user_id : String
  plan_name : String := "DealDish Pro"
  price_aud : ℚ := 7
  currency : String := "AUD"
  billing_cycle : String := "monthly"
  status : SubscriptionStatus
  trial_end_date : Option DateTime := none
  next_billing_date : Option DateTime := none
  created_at : DateTime
  cancelled_at : Option DateTime := none
deriving DecidableEq, Repr

structure Restaurant where
  id : String
  user_id : String
  name : String
  address : String
  cuisine_type : String
  description : String
  image_url : String
  rating : ℚ := 9/2
  is_active : Bool := true
  latitude : Option ℚ := none
  longitude : Option ℚ := none
  commission_rate : ℚ := 1/10
  total_commission_paid : ℚ := 0
  orders_count : ℤ := 0
  created_at : DateTime
deriving DecidableEq, Repr

structure RestaurantCreate where
  name : String
  address : String
  cuisine_type : String
  description : String
  image_url : String
deriving DecidableEq, Repr

structure FoodItem where
  id : String
  restaurant_id : String
  name : String
  description : String
  original_price : ℚ
  discounted_price : ℚ
  discount_percentage : ℤ
  image_url : String
  cuisine_type : String
  dietary_restrictions : List String := []
  quantity_available : ℤ
  expires_at : DateTime
  created_at : DateTime
  is_available : Bool := true
deriving DecidableEq, Repr

structure FoodItemCreate where
  restaurant_id : String
  name : String
  description : String
  original_price : ℚ
  discounted_price : ℚ
  image_url : String
  cuisine_type : String
  dietary_restrictions : List String := []
  quantity_available : ℤ
  expires_at : DateTime
deriving DecidableEq, Repr

/-- Order line items are opaque dicts in the source; modelled as
key/value lists. -/
abbrev LineItem := List (String × String)

structure Order where
  id : String
  customer_id : String
  restaurant_id : String
  food_items : List LineItem
  total_amount : ℚ
  commission_amount : ℚ
  commission_rate : ℚ
  status : String := "pending"
  pickup_time : DateTime
  qr_code : String
  created_at : DateTime
deriving DecidableEq, Repr

structure OrderCreate where
  customer_id : String
  restaurant_id : String
  food_items : List LineItem
  total_amount : ℚ
  pickup_time : DateTime
deriving DecidableEq, Repr

/-- The five MongoDB collections used by the handlers. -/
structure Store where
  users : List User := []
  subscriptions : List Subscription := []
  restaurants : List Restaurant := []
  food_items : List FoodItem := []
  orders : List Order := []
deriving DecidableEq, Repr

/-! ## Helper functions (`server.py` lines 177–199) -/

/-- Helper `get_commission_rate`: fixed 10% trial rate. -/
def get_commission_rate (_user_id : String) : ℚ := 1/10

/-- Helper `calculate_commission(total_amount, commission_rate)`. -/
def calculate_commission (total_amount commission_rate : ℚ) : ℚ :=
  total_amount * commission_rate

/-- Helper `is_trial_period_active(user)`; `datetime.utcnow()` is the explicit
`now` argument.  A `None` trial_end_date is falsy in Python. -/
def is_trial_period_active (user : User) (now : DateTime) : Bool :=
  match user.trial_end_date with
  | some t => decide (now < t)
  | none => false

/-- Outcome of the external `gmaps.geocode(address)` call: the call can
raise an exception, or return a (possibly empty) result list of locations. -/
inductive GeoOutcome where
  | fail
  | results (locations : List (ℚ × ℚ))
deriving DecidableEq, Repr

/-- Helper `geocode_address`: exceptions are swallowed and an empty result list is
falsy, both yielding `(None, None)`; otherwise the first location is used. -/
def geocode_address (outcome : GeoOutcome) : Option ℚ × Option ℚ :=
  match outcome with
  | .fail => (none, none)
  | .results [] => (none, none)
  | .results (l :: _) => (some l.1, some l.2)

/-! ## Handlers -/

inductive RegError where
  | duplicateEmail
  | duplicateMobile
  | validationError
deriving DecidableEq, Repr

/-- Lines 213–225: `User(**user.dict())` followed by the subscription
branch — customers get a trial ending 30 days from now, restaurants get
active status and no trial date. -/
def build_user (user : UserCreate) (now : DateTime) (uid : String) : User :=
  let user_obj : User :=
    { id := uid, email := user.email, name := user.name,
      mobile_number := user.mobile_number, user_type := user.user_type,
      created_at := now }
  if user.user_type = .customer then
    { user_obj with subscription_status := .trial,
                    trial_end_date := some (now + 30),
                    commission_tier := .trial }
  else
    { user_obj with subscription_status := .active,
                    commission_tier := .trial }

/-- Endpoint `POST /api/auth/register` (`register_user`): duplicate-email check,
duplicate-mobile check, pydantic field validation at `User(**user.dict())`,
then the subscription branch and the inserts (a subscription record only
for customers). -/
def register_user (s : Store) (user : UserCreate) (now : DateTime)
    (uid sid : String) : Except RegError User × Store :=
  if (s.users.find? (fun u => u.email == user.email)).isSome then
    (.error .duplicateEmail, s)
  else if (s.users.find? (fun u => u.mobile_number == user.mobile_number)).isSome then
    (.error .duplicateMobile, s)
  else if !(validate_email user.email && validate_mobile_number user.mobile_number) then
    (.error .validationError, s)
  else
    let user_obj := build_user user now uid
    let s1 := { s with users := s.users ++ [user_obj] }
    if user.user_type = .customer then
      let sub : Subscription :=
        { id := sid, user_id := user_obj.id, status := .trial,
          trial_end_date := user_obj.trial_end_date, created_at := now }
      (.ok user_obj, { s1 with subscriptions := s1.subscriptions ++ [sub] })
    else (.ok user_obj, s1)

/-- Endpoint `GET /api/restaurants` (`get_restaurants`):
`db.restaurants.find({"is_active": True}).to_list(100)`. -/
def get_restaurants (s : Store) : List Restaurant :=
  (s.restaurants.filter (fun r => r.is_active)).take 100

/-- Endpoint `POST /api/restaurants` (`create_restaurant`): geocode (best effort),
build the entity with `commission_rate=0.10`, insert.  Never fails. -/
def create_restaurant (s : Store) (restaurant : RestaurantCreate)
    (user_id : String) (outcome : GeoOutcome) (rid : String) (now : DateTime) :
    Restaurant × Store :=
  let coords := geocode_address outcome
  let restaurant_obj : Restaurant :=
    { id := rid, user_id := user_id, name := restaurant.name,
      address := restaurant.address, cuisine_type := restaurant.cuisine_type,
      description := restaurant.description, image_url := restaurant.image_url,
      latitude := coords.1, longitude := coords.2,
      commission_rate := 1/10, created_at := now }
  (restaurant_obj, { s with restaurants := s.restaurants ++ [restaurant_obj] })

/-- Truth of the query
`{"is_available": True, "expires_at": {"$gte": now}, [cuisine], [dietary]}`
on one document.  An empty filter string is falsy in Python, so it adds no
clause; `{"$in": dietary.split(",")}` on the array field matches when the
document's array meets the split list. -/
def food_item_matches (it : FoodItem) (cuisine_type dietary_restrictions : Option String)
    (now : DateTime) : Bool :=
  it.is_available && decide (now ≤ it.expires_at) &&
  (match cuisine_type with
   | some c => c == "" || it.cuisine_type == c
   | none => true) &&
  (match dietary_restrictions with
   | some d => d == "" ||
       (d.splitOn ",").any (fun x => it.dietary_restrictions.contains x)
   | none => true)

/-- Endpoint `GET /api/food-items` (`get_food_items`). -/
def get_food_items (s : Store) (cuisine_type dietary_restrictions : Option String)
    (now : DateTime) : List FoodItem :=
  (s.food_items.filter
    (fun it => food_item_matches it cuisine_type dietary_restrictions now)).take 100

inductive FoodError where
  | zeroDivision
deriving DecidableEq, Repr

/-- The expression
`int(((food_item.original_price - food_item.discounted_price) / food_item.original_price) * 100)`;
Python raises `ZeroDivisionError` when `original_price` is zero. -/
def discount_percentage_calc (original_price discounted_price : ℚ) :
    Except FoodError ℤ :=
  if original_price = 0 then .error .zeroDivision
  else .ok (pyInt ((original_price - discounted_price) / original_price * 100))

/-- Endpoint `POST /api/food-items` (`create_food_item`): compute the discount,
build the entity, insert.  No price-relation validation is performed. -/
def create_food_item (s : Store) (food_item : FoodItemCreate)
    (fid : String) (now : DateTime) : Except FoodError FoodItem × Store :=
  match discount_percentage_calc food_item.original_price food_item.discounted_price with
  | .error e => (.error e, s)
  | .ok discount_percentage =>
    let food_item_obj : FoodItem :=
      { id := fid, restaurant_id := food_item.restaurant_id,
        name := food_item.name, description := food_item.description,
        original_price := food_item.original_price,
        discounted_price := food_item.discounted_price,
        discount_percentage := discount_percentage,
        image_url := food_item.image_url, cuisine_type := food_item.cuisine_type,
        dietary_restrictions := food_item.dietary_restrictions,
        quantity_available := food_item.quantity_available,
        expires_at := food_item.expires_at, created_at := now }
    (.ok food_item_obj, { s with food_items := s.food_items ++ [food_item_obj] })

inductive OrderError where
  | restaurantNotFound
deriving DecidableEq, Repr

/-- Endpoint `POST /api/orders` (`create_order`): look the restaurant up, snapshot its
commission rate (`restaurant.get("commission_rate", 0.10)`; the field is
always present on stored restaurants), compute the commission, insert. -/
def create_order (s : Store) (order : OrderCreate) (oid qr_code : String)
    (now : DateTime) : Except OrderError Order × Store :=
  match s.restaurants.find? (fun r => r.id == order.restaurant_id) with
  | none => (.error .restaurantNotFound, s)
  | some restaurant =>
    let commission_rate := restaurant.commission_rate
    let commission_amount := calculate_commission order.total_amount commission_rate
    let order_obj : Order :=
      { id := oid, customer_id := order.customer_id,
        restaurant_id := order.restaurant_id, food_items := order.food_items,
        total_amount := order.total_amount,
        commission_amount := commission_amount,
        commission_rate := commission_rate,
        pickup_time := order.pickup_time, qr_code := qr_code,
        created_at := now }
    (.ok order_obj, { s with orders := s.orders ++ [order_obj] })

/-- Endpoint `GET /api/analytics/food-waste-saved` (`get_food_waste_saved`):
`(total_waste_saved_kg, total_orders)`. -/
def get_food_waste_saved (s : Store) : ℚ × ℕ :=
  let total_orders := (s.orders.filter (fun o => o.status == "completed")).length
  ((total_orders : ℚ) * (1/2), total_orders)

/-- A `db.restaurants.update_one({"id": rid}, {"$set": {"commission_rate": rate}})`
style mutation, used to state the rate-snapshot property of orders. -/
def set_restaurant_commission_rate (s : Store) (rid : String) (rate : ℚ) : Store :=
  { s with restaurants := s.restaurants.map fun r =>
              if r.id == rid then { r with commission_rate := rate } else r }

/-! ## General lemmas about the embedding -/

/-- On nonnegative rationals, Python truncation is the floor. -/
theorem pyInt_eq_floor {q : ℚ} (h : 0 ≤ q) : pyInt q = ⌊q⌋ := by
  have hnum : 0 ≤ q.num := Rat.num_nonneg.mpr h
  rw [pyInt, Int.tdiv_eq_ediv hnum (by positivity), Rat.floor_def]

/-- On negative rationals, Python truncation is the ceiling. -/
theorem pyInt_eq_ceil {q : ℚ} (h : q < 0) : pyInt q = ⌈q⌉ := by
  have hq : 0 ≤ -q := by linarith
  have hnum : 0 ≤ (-q).num := Rat.num_nonneg.mpr hq
  have h1 : pyInt (-q) = ⌊-q⌋ := pyInt_eq_floor hq
  have h2 : pyInt (-q) = -pyInt q := by
    rw [pyInt, pyInt, Rat.num_neg_eq_neg_num, Rat.den_neg_eq_den, Int.neg_tdiv]
  rw [Int.floor_neg] at h1
  omega

/-! ## Concrete fixtures used by witnesses -/

/-- The spec's end-to-end example: original 25.0, discounted 15.0. -/
def fiPayloadA : FoodItemCreate :=
  { restaurant_id := "r1", name := "Chef Special 1", description := "fresh",
    original_price := 25, discounted_price := 15, image_url := "u",
    cuisine_type := "Italian", quantity_available := 5, expires_at := 10 }

/-- Free item: original 20.0, discounted 0.0. -/
def fiPayloadFree : FoodItemCreate :=
  { fiPayloadA with original_price := 20, discounted_price := 0 }

/-- Both prices zero: satisfies discounted ≤ original ≥ 0. -/
def fiPayloadZero : FoodItemCreate :=
  { fiPayloadA with original_price := 0, discounted_price := 0 }

/-- Negative discounted price below a positive original price. -/
def fiPayloadNeg : FoodItemCreate :=
  { fiPayloadA with original_price := 10, discounted_price := -10 }

/-- Discounted price above original price. -/
def fiPayloadInv : FoodItemCreate :=
  { fiPayloadA with original_price := 10, discounted_price := 20 }

/-! ## C1: discount percentage on valid payloads -/

/-- C1: for every food-item creation payload with
`0 < discounted_price ≤ original_price`, `create_food_item` returns a
`FoodItem` whose `discount_percentage` equals
`⌊(original − discounted) / original * 100⌋`, that value lies in `[0, 100]`,
and the item is appended to the food-items collection. -/
theorem create_food_item_discount_floor
    (s : Store) (p : FoodItemCreate) (fid : String) (now : DateTime)
    (hd : 0 < p.discounted_price) (ho : p.discounted_price ≤ p.original_price) :
    (create_food_item s p fid now).1.map FoodItem.discount_percentage =
      .ok ⌊(p.original_price - p.discounted_price) / p.original_price * 100⌋ ∧
    0 ≤ ⌊(p.original_price - p.discounted_price) / p.original_price * 100⌋ ∧
    ⌊(p.original_price - p.discounted_price) / p.original_price * 100⌋ ≤ 100 ∧
    (create_food_item s p fid now).2.food_items.map FoodItem.discount_percentage =
      s.food_items.map FoodItem.discount_percentage ++
        [⌊(p.original_price - p.discounted_price) / p.original_price * 100⌋] := by
  have hop : 0 < p.original_price := lt_of_lt_of_le hd ho
  have hne : ¬ p.original_price = 0 := ne_of_gt hop
  have hq0 : 0 ≤ (p.original_price - p.discounted_price) / p.original_price * 100 :=
    mul_nonneg (div_nonneg (by linarith) hop.le) (by norm_num)
  have hq1 : (p.original_price - p.discounted_price) / p.original_price * 100 ≤ 100 := by
    have h1 : (p.original_price - p.discounted_price) / p.original_price ≤ 1 :=
      (div_le_one hop).mpr (by linarith)
    nlinarith
  refine ⟨?_, Int.floor_nonneg.mpr hq0, ?_, ?_⟩
  · simp [create_food_item, discount_percentage_calc, hne, pyInt_eq_floor hq0, Except.map]
  · have h2 := Int.floor_le_floor (α := ℚ) hq1
    simpa using h2
  · simp [create_food_item, discount_percentage_calc, hne, pyInt_eq_floor hq0]

/-- C1 witness: original 25.0, discounted 15.0 gives discount 40. -/
theorem create_food_item_discount_floor_witness :
    (create_food_item {} fiPayloadA "f1" 0).1.map FoodItem.discount_percentage =
      .ok 40 ∧ (0:ℤ) ≤ 40 ∧ (40:ℤ) ≤ 100 := by
  have h := create_food_item_discount_floor {} fiPayloadA "f1" 0
    (by norm_num [fiPayloadA]) (by norm_num [fiPayloadA])
  have hfl : ⌊(fiPayloadA.original_price - fiPayloadA.discounted_price) /
      fiPayloadA.original_price * 100⌋ = (40:ℤ) := by
    norm_num [fiPayloadA]
  exact ⟨by rw [← hfl]; exact h.1, by norm_num, by norm_num⟩

/-! ## C6: inverted prices are not rejected -/

/-- C6 counterexample: a payload with `discounted_price > original_price` is
not rejected with a validation error — `create_food_item` succeeds and a
`FoodItem` (with `discount_percentage = −100`) is stored. -/
theorem create_food_item_inverted_prices_cex :
    fiPayloadInv.original_price < fiPayloadInv.discounted_price ∧
    (create_food_item {} fiPayloadInv "f1" 0).1.map FoodItem.discount_percentage =
      .ok (-100) ∧
    (create_food_item {} fiPayloadInv "f1" 0).2.food_items.length = 1 := by
  have hp : pyInt ((fiPayloadInv.original_price - fiPayloadInv.discounted_price) /
      fiPayloadInv.original_price * 100) = -100 := by
    rw [pyInt_eq_ceil (by norm_num [fiPayloadInv, fiPayloadA])]
    norm_num [fiPayloadInv, fiPayloadA]
    rw [Int.ceil_eq_iff]
    constructor <;> norm_num
  refine ⟨by norm_num [fiPayloadInv, fiPayloadA], ?_, ?_⟩
  · simp [create_food_item, discount_percentage_calc, Except.map,
      show ¬ fiPayloadInv.original_price = 0 by norm_num [fiPayloadInv, fiPayloadA], hp]
  · simp [create_food_item, discount_percentage_calc,
      show ¬ fiPayloadInv.original_price = 0 by norm_num [fiPayloadInv, fiPayloadA]]

/-- C6 amended: `create_food_item` performs no price-relation validation.
For `0 < original_price < discounted_price` it succeeds, stores the item,
and the computed `discount_percentage` is the Python truncation of
`(original − discounted) / original * 100`, which is ≤ 0. -/
theorem create_food_item_inverted_prices_stored
    (s : Store) (p : FoodItemCreate) (fid : String) (now : DateTime)
    (hop : 0 < p.original_price) (hd : p.original_price < p.discounted_price) :
    (create_food_item s p fid now).1.map FoodItem.discount_percentage =
      .ok (pyInt ((p.original_price - p.discounted_price) / p.original_price * 100)) ∧
    pyInt ((p.original_price - p.discounted_price) / p.original_price * 100) ≤ 0 ∧
    (create_food_item s p fid now).2.food_items.length = s.food_items.length + 1 := by
  have hne : ¬ p.original_price = 0 := ne_of_gt hop
  have hq : (p.original_price - p.discounted_price) / p.original_price * 100 < 0 :=
    mul_neg_of_neg_of_pos (div_neg_of_neg_of_pos (by linarith) hop) (by norm_num)
  refine ⟨?_, ?_, ?_⟩
  · simp [create_food_item, discount_percentage_calc, hne, Except.map]
  · rw [pyInt_eq_ceil hq]
    exact Int.ceil_le.mpr (by exact_mod_cast hq.le)
  · simp [create_food_item, discount_percentage_calc, hne]

/-- C6 amended witness: original 10.0, discounted 20.0. -/
theorem create_food_item_inverted_prices_stored_witness :
    (create_food_item {} fiPayloadInv "f2" 0).1.map FoodItem.discount_percentage =
      .ok (pyInt ((fiPayloadInv.original_price - fiPayloadInv.discounted_price) /
        fiPayloadInv.original_price * 100)) ∧
    pyInt ((fiPayloadInv.original_price - fiPayloadInv.discounted_price) /
        fiPayloadInv.original_price * 100) ≤ 0 ∧
    (create_food_item {} fiPayloadInv "f2" 0).2.food_items.length = 0 + 1 :=
  create_food_item_inverted_prices_stored {} fiPayloadInv "f2" 0
    (by norm_num [fiPayloadInv, fiPayloadA]) (by norm_num [fiPayloadInv, fiPayloadA])

/-! ## C7: safety of the discount computation -/

/-- C7 counterexample: with `discounted_price ≤ original_price` and
`original_price ≥ 0` the computation is not always safe, nor always in
`[0, 100]`: at `original_price = 0` it fails with a division by zero, and at
`(10, −10)` it produces 200. -/
theorem discount_calc_zero_division_cex :
    fiPayloadZero.discounted_price ≤ fiPayloadZero.original_price ∧
    0 ≤ fiPayloadZero.original_price ∧
    (create_food_item {} fiPayloadZero "f1" 0).1 = .error .zeroDivision ∧
    fiPayloadNeg.discounted_price ≤ fiPayloadNeg.original_price ∧
    0 ≤ fiPayloadNeg.original_price ∧
    (create_food_item {} fiPayloadNeg "f2" 0).1.map FoodItem.discount_percentage =
      .ok 200 := by
  have hp : pyInt ((fiPayloadNeg.original_price - fiPayloadNeg.discounted_price) /
      fiPayloadNeg.original_price * 100) = 200 := by
    rw [pyInt_eq_floor (by norm_num [fiPayloadNeg, fiPayloadA])]
    norm_num [fiPayloadNeg, fiPayloadA]
  refine ⟨by norm_num [fiPayloadZero, fiPayloadA],
    by norm_num [fiPayloadZero, fiPayloadA], ?_,
    by norm_num [fiPayloadNeg, fiPayloadA],
    by norm_num [fiPayloadNeg, fiPayloadA], ?_⟩
  · simp [create_food_item, discount_percentage_calc,
      show fiPayloadZero.original_price = 0 from by norm_num [fiPayloadZero, fiPayloadA]]
  · simp [create_food_item, discount_percentage_calc, Except.map,
      show ¬ fiPayloadNeg.original_price = 0 from by norm_num [fiPayloadNeg, fiPayloadA], hp]

/-- C7 amended: for `0 ≤ discounted_price ≤ original_price` with
`0 < original_price`, the computation is safe and yields
`⌊(original − discounted) / original * 100⌋ ∈ [0, 100]`. -/
theorem discount_calc_safe_on_nonneg_range
    (s : Store) (p : FoodItemCreate) (fid : String) (now : DateTime)
    (h0 : 0 ≤ p.discounted_price) (ho : p.discounted_price ≤ p.original_price)
    (hop : 0 < p.original_price) :
    (create_food_item s p fid now).1.map FoodItem.discount_percentage =
      .ok ⌊(p.original_price - p.discounted_price) / p.original_price * 100⌋ ∧
    0 ≤ ⌊(p.original_price - p.discounted_price) / p.original_price * 100⌋ ∧
    ⌊(p.original_price - p.discounted_price) / p.original_price * 100⌋ ≤ 100 := by
  have hne : ¬ p.original_price = 0 := ne_of_gt hop
  have hq0 : 0 ≤ (p.original_price - p.discounted_price) / p.original_price * 100 :=
    mul_nonneg (div_nonneg (by linarith) hop.le) (by norm_num)
  have hq1 : (p.original_price - p.discounted_price) / p.original_price * 100 ≤ 100 := by
    have h1 : (p.original_price - p.discounted_price) / p.original_price ≤ 1 :=
      (div_le_one hop).mpr (by linarith)
    nlinarith
  refine ⟨?_, Int.floor_nonneg.mpr hq0, ?_⟩
  · simp [create_food_item, discount_percentage_calc, hne, pyInt_eq_floor hq0, Except.map]
  · have h2 := Int.floor_le_floor (α := ℚ) hq1
    simpa using h2

/-- C7 amended witness: original 20.0, discounted 0.0 gives exactly 100. -/
theorem discount_calc_safe_on_nonneg_range_witness :
    (create_food_item {} fiPayloadFree "f1" 0).1.map FoodItem.discount_percentage =
      .ok 100 ∧ (0:ℤ) ≤ 100 := by
  have h := discount_calc_safe_on_nonneg_range {} fiPayloadFree "f1" 0
    (by norm_num [fiPayloadFree, fiPayloadA]) (by norm_num [fiPayloadFree, fiPayloadA])
    (by norm_num [fiPayloadFree, fiPayloadA])
  have hfl : ⌊(fiPayloadFree.original_price - fiPayloadFree.discounted_price) /
      fiPayloadFree.original_price * 100⌋ = (100:ℤ) := by
    norm_num [fiPayloadFree, fiPayloadA]
  exact ⟨by rw [← hfl]; exact h.1, by norm_num⟩

/-! ## Inversion lemma for successful registration -/

theorem build_user_email (user : UserCreate) (now : DateTime) (uid : String) :
    (build_user user now uid).email = user.email := by
  unfold build_user
  split <;> rfl

theorem build_user_trial_end_customer (user : UserCreate) (now : DateTime)
    (uid : String) (h : user.user_type = .customer) :
    (build_user user now uid).trial_end_date = some (now + 30) := by
  unfold build_user
  rw [if_pos h]

theorem build_user_trial_end_restaurant (user : UserCreate) (now : DateTime)
    (uid : String) (h : user.user_type = .restaurant) :
    (build_user user now uid).trial_end_date = none := by
  unfold build_user
  rw [if_neg (by rw [h]; decide)]

/-- A successful `register_user` call returns `build_user`, appends exactly
that user, and implies that no stored user carried the requested email. -/
theorem register_user_ok {s : Store} {user : UserCreate} {now : DateTime}
    {uid sid : String} {u : User} {s1 : Store}
    (h : register_user s user now uid sid = (.ok u, s1)) :
    u = build_user user now uid ∧ s1.users = s.users ++ [u] ∧
    s.users.find? (fun v => v.email == user.email) = none := by
  unfold register_user at h
  by_cases h1 : (s.users.find? (fun v => v.email == user.email)).isSome
  · rw [if_pos h1] at h
    exact absurd h (by simp)
  · rw [if_neg h1] at h
    by_cases h2 : (s.users.find? (fun v => v.mobile_number == user.mobile_number)).isSome
    · rw [if_pos h2] at h
      exact absurd h (by simp)
    · rw [if_neg h2] at h
      by_cases h3 : (!(validate_email user.email && validate_mobile_number user.mobile_number)) = true
      · rw [if_pos h3] at h
        exact absurd h (by simp)
      · rw [if_neg h3] at h
        have hnone : s.users.find? (fun v => v.email == user.email) = none :=
          Option.not_isSome_iff_eq_none.mp h1
        by_cases h4 : user.user_type = .customer
        · rw [if_pos h4] at h
          simp only [Prod.mk.injEq, Except.ok.injEq] at h
          obtain ⟨hl, hr⟩ := h
          subst hl
          subst hr
          exact ⟨rfl, rfl, hnone⟩
        · rw [if_neg h4] at h
          simp only [Prod.mk.injEq, Except.ok.injEq] at h
          obtain ⟨hl, hr⟩ := h
          subst hl
          subst hr
          exact ⟨rfl, rfl, hnone⟩

/-! ## C2: duplicate email registration -/

/-- C2: if a registration succeeded, a second registration with the same
email (against the resulting store) fails with the duplicate-email
`ConflictError`, leaves the store — users and subscriptions included —
untouched, and exactly one user with that email is stored. -/
theorem register_user_duplicate_email_conflict
    (s : Store) (p1 p2 : UserCreate) (now1 now2 : DateTime)
    (uid1 sid1 uid2 sid2 : String) (u : User) (s1 : Store)
    (he : p2.email = p1.email)
    (h1 : register_user s p1 now1 uid1 sid1 = (.ok u, s1)) :
    register_user s1 p2 now2 uid2 sid2 = (.error .duplicateEmail, s1) ∧
    (s1.users.filter (fun v => v.email == p1.email)).length = 1 := by
  obtain ⟨hu, hus, hnone⟩ := register_user_ok h1
  have huemail : u.email = p1.email := by rw [hu, build_user_email]
  have hmem : u ∈ s1.users := by
    rw [hus]
    exact List.mem_append_right _ (List.mem_singleton_self u)
  have hfind : (s1.users.find? (fun v => v.email == p2.email)).isSome := by
    rw [List.find?_isSome]
    exact ⟨u, hmem, by simp [huemail, he]⟩
  constructor
  · unfold register_user
    rw [if_pos hfind]
  · have hall : ∀ v ∈ s.users, ¬ (v.email == p1.email) = true :=
      List.find?_eq_none.mp hnone
    rw [hus, List.filter_append, List.filter_eq_nil_iff.mpr hall]
    simp [huemail]

/-- Customer registration payload from the spec end-to-end example. -/
def custA : UserCreate :=
  { email := "a@b.com", name := "A", mobile_number := "0412345678",
    user_type := .customer }

/-- Second payload with the same email but a different mobile number. -/
def custB : UserCreate :=
  { email := "a@b.com", name := "B", mobile_number := "0412345679",
    user_type := .customer }

/-- The user document `register_user` produces for `custA` at time 0. -/
def userA : User :=
  { id := "uid1", email := "a@b.com", name := "A", mobile_number := "0412345678",
    user_type := .customer, created_at := 0, subscription_status := .trial,
    trial_end_date := some 30, subscription_end_date := none,
    commission_tier := .trial }

/-- The subscription document created alongside `userA`. -/
def subA : Subscription :=
  { id := "sid1", user_id := "uid1", status := .trial,
    trial_end_date := some 30, created_at := 0 }

/-- The store after registering `custA` into an empty store. -/
def storeA : Store := { users := [userA], subscriptions := [subA] }

/-- C2 witness: registering `a@b.com` twice on an empty store. -/
theorem register_user_duplicate_email_conflict_witness :
    register_user storeA custB 1 "uid2" "sid2" = (.error .duplicateEmail, storeA) ∧
    (storeA.users.filter (fun v => v.email == custA.email)).length = 1 :=
  register_user_duplicate_email_conflict {} custA custB 0 1
    "uid1" "sid1" "uid2" "sid2" userA storeA rfl (by decide)

/-! ## C5: thirty-day customer trial -/

/-- C5: a customer registered at time `now` gets
`trial_end_date = now + 30` days and `is_trial_period_active` holds exactly
before that instant; a registered restaurant user has no trial end date, and
any user without one is never trial-active. -/
theorem customer_trial_thirty_days :
    (∀ s p now uid sid u s1, p.user_type = .customer →
        register_user s p now uid sid = (.ok u, s1) →
        u.trial_end_date = some (now + 30) ∧
        ∀ t, is_trial_period_active u t = true ↔ t < now + 30) ∧
    (∀ s p now uid sid u s1, p.user_type = .restaurant →
        register_user s p now uid sid = (.ok u, s1) →
        u.trial_end_date = none) ∧
    (∀ u t, u.trial_end_date = none → is_trial_period_active u t = false) := by
  refine ⟨?_, ?_, ?_⟩
  · intro s p now uid sid u s1 hc h
    obtain ⟨hu, -, -⟩ := register_user_ok h
    have hte : u.trial_end_date = some (now + 30) := by
      rw [hu]
      exact build_user_trial_end_customer p now uid hc
    refine ⟨hte, fun t => ?_⟩
    rw [is_trial_period_active, hte]
    simp
  · intro s p now uid sid u s1 hc h
    obtain ⟨hu, -, -⟩ := register_user_ok h
    rw [hu]
    exact build_user_trial_end_restaurant p now uid hc
  · intro u t h
    rw [is_trial_period_active, h]

/-- A user document with no trial end date, as restaurants get. -/
def userR : User :=
  { id := "uid9", email := "r@b.com", name := "R", mobile_number := "0498765432",
    user_type := .restaurant, created_at := 5, subscription_status := .active,
    trial_end_date := none, subscription_end_date := none,
    commission_tier := .trial }

/-- C5 witness: `custA` registered at time 0 is trial-active at day 29 and
not at day 30, and a user without a trial end date is never trial-active. -/
theorem customer_trial_thirty_days_witness :
    userA.trial_end_date = some ((0:ℤ) + 30) ∧
    is_trial_period_active userA 29 = true ∧
    (is_trial_period_active userA 30 = true → False) ∧
    is_trial_period_active userR 7 = false := by
  have h := (customer_trial_thirty_days.1 {} custA 0 "uid1" "sid1" userA storeA
    rfl (by decide))
  refine ⟨h.1, (h.2 29).mpr (by norm_num), fun hx => ?_,
    customer_trial_thirty_days.2.2 userR 7 rfl⟩
  have := (h.2 30).mp hx
  norm_num at this


/-! ## C3: order against a nonexistent restaurant -/

/-- C3: when no stored restaurant carries the requested `restaurant_id`,
`create_order` fails with `NotFoundError` and returns the store unchanged —
in particular no order document is written. -/
theorem create_order_unknown_restaurant_no_write
    (s : Store) (p : OrderCreate) (oid qr : String) (now : DateTime)
    (h : ∀ r ∈ s.restaurants, r.id ≠ p.restaurant_id) :
    create_order s p oid qr now = (.error .restaurantNotFound, s) := by
  have hfind : s.restaurants.find? (fun r => r.id == p.restaurant_id) = none :=
    List.find?_eq_none.mpr (fun r hr => by simpa using h r hr)
  simp [create_order, hfind]

/-- A stored restaurant, with the trial commission rate of 10%. -/
def restW : Restaurant :=
  { id := "r1", user_id := "u1", name := "Luigi", address := "123 Collins Street",
    cuisine_type := "Italian", description := "demo", image_url := "i",
    created_at := 0 }

/-- A store holding only `restW`. -/
def storeR : Store := { restaurants := [restW] }

/-- An order payload referring to the unknown restaurant id `r2`. -/
def ordMiss : OrderCreate :=
  { customer_id := "c1", restaurant_id := "r2", food_items := [],
    total_amount := 20, pickup_time := 2 }

/-- An order payload referring to the stored restaurant `r1`. -/
def ordHit : OrderCreate := { ordMiss with restaurant_id := "r1" }

/-- C3 witness: ordering from restaurant `r2` when only `r1` exists. -/
theorem create_order_unknown_restaurant_no_write_witness :
    create_order storeR ordMiss "o1" "q1" 0 = (.error .restaurantNotFound, storeR) :=
  create_order_unknown_restaurant_no_write storeR ordMiss "o1" "q1" 0 (by decide)

/-! ## C4: commission snapshot at order creation -/

/-- C4: an order created against a stored restaurant snapshots that
restaurant's `commission_rate`, sets
`commission_amount = total_amount × commission_rate`, appends exactly one
order carrying those values, and any later update of a restaurant's
commission rate leaves the orders collection untouched. -/
theorem create_order_commission_snapshot
    (s : Store) (p : OrderCreate) (oid qr : String) (now : DateTime)
    (r : Restaurant)
    (hr : s.restaurants.find? (fun x => x.id == p.restaurant_id) = some r) :
    (create_order s p oid qr now).1.map Order.commission_rate =
      .ok r.commission_rate ∧
    (create_order s p oid qr now).1.map Order.commission_amount =
      .ok (p.total_amount * r.commission_rate) ∧
    (create_order s p oid qr now).2.orders.map Order.commission_rate =
      s.orders.map Order.commission_rate ++ [r.commission_rate] ∧
    (create_order s p oid qr now).2.orders.map Order.commission_amount =
      s.orders.map Order.commission_amount ++ [p.total_amount * r.commission_rate] ∧
    ∀ st rid rate, (set_restaurant_commission_rate st rid rate).orders = st.orders := by
  refine ⟨?_, ?_, ?_, ?_, fun st rid rate => rfl⟩ <;>
    simp [create_order, hr, calculate_commission, Except.map]

/-- C4 witness: total 20.0 at rate 0.10 gives commission 2.0. -/
theorem create_order_commission_snapshot_witness :
    (create_order storeR ordHit "o1" "q1" 0).1.map Order.commission_rate =
      .ok restW.commission_rate ∧
    (create_order storeR ordHit "o1" "q1" 0).1.map Order.commission_amount =
      .ok 2 := by
  have h := create_order_commission_snapshot storeR ordHit "o1" "q1" 0 restW rfl
  have hval : ordHit.total_amount * restW.commission_rate = (2:ℚ) := by
    norm_num [ordHit, ordMiss, restW]
  exact ⟨h.1, by rw [← hval]; exact h.2.1⟩

/-! ## C8: geocoding failure never aborts restaurant creation -/

/-- C8: `create_restaurant` is total — the geocoding outcome never surfaces
as an error — and when the external call fails or returns no result the
created restaurant has null coordinates and is still stored. -/
theorem create_restaurant_geocode_failure_degrades
    (s : Store) (p : RestaurantCreate) (user_id rid : String) (now : DateTime)
    (outcome : GeoOutcome)
    (h : outcome = .fail ∨ outcome = .results []) :
    (create_restaurant s p user_id outcome rid now).1.latitude = none ∧
    (create_restaurant s p user_id outcome rid now).1.longitude = none ∧
    (create_restaurant s p user_id outcome rid now).2.restaurants =
      s.restaurants ++ [(create_restaurant s p user_id outcome rid now).1] := by
  rcases h with h | h <;> subst h <;> exact ⟨rfl, rfl, rfl⟩

/-- Creation payload for the geocoding witness. -/
def restPayload : RestaurantCreate :=
  { name := "Luigi", address := "123 Collins Street, Melbourne",
    cuisine_type := "Italian", description := "demo", image_url := "i" }

/-- C8 witness: a raising geocoder still yields a stored restaurant with
null coordinates. -/
theorem create_restaurant_geocode_failure_degrades_witness :
    (create_restaurant {} restPayload "u1" .fail "r9" 0).1.latitude = none ∧
    (create_restaurant {} restPayload "u1" .fail "r9" 0).1.longitude = none ∧
    (create_restaurant {} restPayload "u1" .fail "r9" 0).2.restaurants =
      ({} : Store).restaurants ++ [(create_restaurant {} restPayload "u1" .fail "r9" 0).1] :=
  create_restaurant_geocode_failure_degrades {} restPayload "u1" "r9" 0 .fail (Or.inl rfl)

/-! ## C9: food-waste analytics -/

/-- C9: with exactly `N` stored orders in status `"completed"`, the
analytics endpoint reports `total_orders = N` and
`total_waste_saved_kg = N × 0.5`; appending an order in any other status
leaves the result unchanged. -/
theorem food_waste_half_kg_per_completed_order :
    (∀ (s : Store) (N : ℕ),
        (s.orders.filter (fun o => o.status == "completed")).length = N →
        get_food_waste_saved s = (((N : ℚ) * (1/2), N) : ℚ × ℕ)) ∧
    (∀ s o, o.status ≠ "completed" →
        get_food_waste_saved { s with orders := s.orders ++ [o] } =
          get_food_waste_saved s) := by
  constructor
  · intro s N h
    subst h
    rfl
  · intro s o h
    have hb : (o.status == "completed") = false := by simpa using h
    simp [get_food_waste_saved, List.filter_append, hb]

/-- A completed order. -/
def ordC1 : Order :=
  { id := "o1", customer_id := "c", restaurant_id := "r1", food_items := [],
    total_amount := 20, commission_amount := 2, commission_rate := 1,
    status := "completed", pickup_time := 1, qr_code := "q", created_at := 0 }

/-- A pending order. -/
def ordP1 : Order := { ordC1 with id := "o2", status := "pending" }

/-- A second completed order. -/
def ordC2 : Order := { ordC1 with id := "o3" }

/-- Two completed orders and one pending order. -/
def storeO : Store := { orders := [ordC1, ordP1, ordC2] }

/-- C9 witness: two completed orders report 1.0 kg saved; a further pending
order changes nothing. -/
theorem food_waste_half_kg_per_completed_order_witness :
    get_food_waste_saved storeO = (((2:ℚ) * (1/2), 2) : ℚ × ℕ) ∧
    get_food_waste_saved { storeO with orders := storeO.orders ++ [ordP1] } =
      get_food_waste_saved storeO :=
  ⟨food_waste_half_kg_per_completed_order.1 storeO 2 (by decide),
   food_waste_half_kg_per_completed_order.2 storeO ordP1 (by decide)⟩

/-! ## C10: list endpoints return at most 100 entities -/

/-- C10: the restaurant and food-item list endpoints return at most 100
documents, and when more than 100 match the filter the result is capped at
exactly 100 — the surplus is omitted. -/
theorem list_endpoints_cap_hundred :
    (∀ s, (get_restaurants s).length ≤ 100 ∧
        (100 < (s.restaurants.filter (fun r => r.is_active)).length →
          (get_restaurants s).length = 100)) ∧
    (∀ s c d now, (get_food_items s c d now).length ≤ 100 ∧
        (100 < (s.food_items.filter
            (fun it => food_item_matches it c d now)).length →
          (get_food_items s c d now).length = 100)) := by
  constructor
  · intro s
    rw [get_restaurants, List.length_take]
    exact ⟨min_le_left _ _, fun h => by omega⟩
  · intro s c d now
    rw [get_food_items, List.length_take]
    exact ⟨min_le_left _ _, fun h => by omega⟩

/-- Fixture holding 101 copies of an active restaurant. -/
def storeBigR : Store := { restaurants := List.replicate 101 restW }

/-- An available, unexpired food item. -/
def itemFut : FoodItem :=
  { id := "f", restaurant_id := "r1", name := "n", description := "d",
    original_price := 25, discounted_price := 15, discount_percentage := 40,
    image_url := "i", cuisine_type := "Italian", quantity_available := 1,
    expires_at := 10, created_at := 0 }

/-- Fixture holding 101 copies of an available food item. -/
def storeBigF : Store := { food_items := List.replicate 101 itemFut }

/-- C10 witness: 101 matching documents are capped to 100 on both
endpoints. -/
theorem list_endpoints_cap_hundred_witness :
    (get_restaurants storeBigR).length = 100 ∧
    (get_food_items storeBigF none none 0).length = 100 :=
  ⟨(list_endpoints_cap_hundred.1 storeBigR).2 (by decide),
   (list_endpoints_cap_hundred.2 storeBigF none none 0).2 (by decide)⟩


end DealDish
